import Mathlib

/-!
Verification of the Telegram bot worker (Hono on Cloudflare) and its status
script, as a shallow embedding in Lean 4.

Source files embedded:
- the worker app: health route, one-time webhook-init middleware on `app.use`,
  the `POST /webhook` handler, `buildGreeting`, `configureWebhook`;
- the status script: `checkWebhookSecret`.

JavaScript `string | undefined` values are `Option String`; JS truthiness of a
string (`undefined` and `""` are falsy) is `isTruthy`. Optional JSON fields of
the inbound Update are `Option` fields. Network effects are oracle inputs:
each `fetch` call's outcome is a parameter, and the handler's observable
behaviour (response status/body, whether the request body was parsed, which
outbound send was scheduled) is returned as data.
-/

namespace TgBot

/-- JS truthiness of a `string | undefined` value: `undefined` and the empty
string are falsy, every other string is truthy. -/
def isTruthy : Option String → Bool
  | none => false
  | some s => !s.isEmpty

/-- `TelegramUser` from the worker source: `{id, is_bot, first_name?,
last_name?, username?}`. -/
structure TelegramUser where
  id : Int
  is_bot : Bool
  first_name : Option String
  last_name : Option String
  username : Option String
deriving DecidableEq, Repr

/-- `TelegramChat` from the worker source: `{id, type}`. -/
structure TelegramChat where
  id : Int
  chatType : String
deriving DecidableEq, Repr

/-- `TelegramMessage` from the worker source. The TS type declares `chat` as
required, but the handler re-checks `!message.chat` on the parsed JSON, so a
payload may lack it at runtime; it is therefore an `Option` here. The source
field `from` is a Lean keyword, so it is named `sender` here. -/
structure TelegramMessage where
  message_id : Int
  date : Int
  chat : Option TelegramChat
  sender : Option TelegramUser
  text : Option String
deriving DecidableEq, Repr

/-- `TelegramUpdate` from the worker source: `{update_id, message?,
edited_message?}`. -/
structure TelegramUpdate where
  update_id : Int
  message : Option TelegramMessage
  edited_message : Option TelegramMessage
deriving DecidableEq, Repr

/-- JS `String.prototype.trim`, modelled on the character list: strip leading
and trailing whitespace. -/
def jsTrim (s : String) : String :=
  ⟨((s.data.dropWhile Char.isWhitespace).reverse.dropWhile Char.isWhitespace).reverse⟩

/-- JS `String.prototype.toLowerCase`, modelled characterwise. -/
def jsToLower (s : String) : String :=
  ⟨s.data.map Char.toLower⟩

/-- `buildGreeting` from the worker source, line for line: absent user gives
the fixed default; each truthy field pushes one token (`@username`, first
name, last name, in that order); tokens are joined with single spaces and
trimmed; an empty result falls back to the default, otherwise it is prefixed
with `Hello `. -/
def buildGreeting (user : Option TelegramUser) : String :=
  match user with
  | none => "Hello there"
  | some u =>
    let parts : List String :=
      (match u.username with
        | some s => if s.isEmpty then [] else ["@" ++ s]
        | none => []) ++
      (match u.first_name with
        | some s => if s.isEmpty then [] else [s]
        | none => []) ++
      (match u.last_name with
        | some s => if s.isEmpty then [] else [s]
        | none => [])
    let info := jsTrim (String.intercalate " " parts)
    if info.isEmpty then "Hello there" else "Hello " ++ info

/-- An outbound `sendMessage` call scheduled by the handler via
`waitUntil`: the chat id and the text it would post. -/
structure OutboundSend where
  chatId : Int
  text : String
deriving DecidableEq, Repr

/-- Observable outcome of one `POST /webhook` request: HTTP status and body of
the response, whether `c.req.json()` was invoked, and the outbound send (if
any) scheduled on the execution context. -/
structure WebhookOutcome where
  status : Nat
  body : String
  parsedBody : Bool
  send : Option OutboundSend
deriving DecidableEq, Repr

/-- `update.message || update.edited_message` from the handler: the first
present message payload. -/
def selectedMessage (u : TelegramUpdate) : Option TelegramMessage :=
  match u.message with
  | some m => some m
  | none => u.edited_message

/-- The `POST /webhook` handler from the worker source. `configuredSecret` is
`c.env.WEBHOOK_SECRET_TOKEN`, `secretHeader` is the request's
`X-Telegram-Bot-Api-Secret-Token` header (`none` when absent), and `parsed`
is the outcome of `c.req.json()` (`none` when the body is not valid JSON).
The secret gate `if (configuredSecret && secretHeader !== configuredSecret)`
runs before the body is touched, so the 401 outcome reports
`parsedBody := false`. -/
def postWebhook (configuredSecret secretHeader : Option String)
    (parsed : Option TelegramUpdate) : WebhookOutcome :=
  if isTruthy configuredSecret = true ∧ secretHeader ≠ configuredSecret then
    { status := 401, body := "unauthorized", parsedBody := false, send := none }
  else
    match parsed with
    | none => { status := 400, body := "bad request", parsedBody := true, send := none }
    | some update =>
      match selectedMessage update with
      | none => { status := 200, body := "ok", parsedBody := true, send := none }
      | some message =>
        match message.chat with
        | none => { status := 200, body := "ok", parsedBody := true, send := none }
        | some chat =>
          { status := 200, body := "ok", parsedBody := true,
            send := some { chatId := chat.id, text := buildGreeting message.sender } }

/-- The worker's environment bindings: `BOT_API_TOKEN`,
`WEBHOOK_SECRET_TOKEN?`, `BASE_URL?`, `AUTO_WEBHOOK_INIT?`. -/
structure Bindings where
  BOT_API_TOKEN : String
  WEBHOOK_SECRET_TOKEN : Option String
  BASE_URL : Option String
  AUTO_WEBHOOK_INIT : Option String
deriving DecidableEq, Repr

/-- Log severity used by the worker (`console.log` / `console.warn` /
`console.error`). -/
inductive LogLevel where
  | log
  | warn
  | error
deriving DecidableEq, Repr

/-- One console entry emitted by `configureWebhook`. -/
structure LogEntry where
  level : LogLevel
  msg : String
deriving DecidableEq, Repr

/-- Outcome of one outbound `fetch` to the Telegram API, as an oracle input:
`success` is `res.ok` with a body whose `ok` field is true, `failure` is any
resolved response that is not a success, `exception` is `fetch` (or body
reading) rejecting. -/
inductive CallOutcome where
  | success
  | failure
  | exception
deriving DecidableEq, Repr

/-- `env.BASE_URL?.replace(/\/$/, '')`: drop one trailing slash. -/
def stripTrailingSlash (s : String) : String :=
  match s.data.reverse with
  | '/' :: rest => ⟨rest.reverse⟩
  | _ => s

/-- `configureWebhook` from the worker source: always attempt `deleteWebhook`
(all errors caught and logged as warnings), then, only when `BASE_URL` is
configured and truthy, attempt `setWebhook` (all errors caught and logged).
It is a total function into a log list: every failure path produces console
entries and `Unit`, so the promise it backs never rejects. -/
def configureWebhook (env : Bindings) (delOutcome setOutcome : CallOutcome) :
    List LogEntry :=
  let delLogs : List LogEntry :=
    match delOutcome with
    | .success => []
    | .failure => [{ level := .warn, msg := "deleteWebhook did not succeed" }]
    | .exception => [{ level := .warn, msg := "deleteWebhook error" }]
  let baseUrl : Option String := env.BASE_URL.map stripTrailingSlash
  if isTruthy baseUrl = false then
    delLogs ++ [{ level := .warn, msg := "configureWebhook skipped: BASE_URL not configured" }]
  else
    delLogs ++
      match setOutcome with
      | .success => [{ level := .log, msg := "Webhook configured" }]
      | .failure => [{ level := .error, msg := "setWebhook failed" }]
      | .exception => [{ level := .error, msg := "setWebhook error" }]

/-- Process-lifetime state of the worker: the module-level latch
`webhookInitPromise` (`true` when non-null) and how many times
`configureWebhook` has been invoked. -/
structure WorkerState where
  webhookInitPromise : Bool
  configureWebhookCalls : Nat
deriving DecidableEq, Repr

/-- The state a fresh isolate starts in: `let webhookInitPromise = null`. -/
def initialWorkerState : WorkerState :=
  { webhookInitPromise := false, configureWebhookCalls := 0 }

/-- `(c.env.AUTO_WEBHOOK_INIT || '').toLowerCase() === 'true'`. -/
def autoInitEnabled (env : Bindings) : Bool :=
  jsToLower (env.AUTO_WEBHOOK_INIT.getD "") == "true"

/-- The `app.use('*')` middleware, restricted to its effect on process state:
when auto-init is enabled and the latch is unset, store the (never-rejecting)
`configureWebhook` promise in the latch and count one invocation; otherwise
leave the state alone. The check and the assignment run synchronously before
any request awaits, so one step per request suffices. -/
def middlewareStep (env : Bindings) (s : WorkerState) : WorkerState :=
  if autoInitEnabled env = true ∧ s.webhookInitPromise = false then
    { webhookInitPromise := true, configureWebhookCalls := s.configureWebhookCalls + 1 }
  else s

/-- Serve `n` requests through the middleware, threading the process state. -/
def serveRequests (env : Bindings) : Nat → WorkerState → WorkerState
  | 0, s => s
  | n + 1, s => serveRequests env n (middlewareStep env s)

/-- `checkWebhookSecret` from the status script, with the two probe responses
as oracle inputs: `goodStatus` is the HTTP status of the POST carrying the
configured secret (or `''` when none), `badStatus` that of the POST carrying
`__invalid__`. Returns the check's `ok` field:
`secret ? bad === 401 && good === 200 : good === 200 && bad === 200`,
and `false` outright when `BASE_URL` is missing. -/
def checkWebhookSecret (baseUrl : String) (secret : Option String)
    (goodStatus badStatus : Nat) : Bool :=
  if baseUrl.isEmpty then false
  else if isTruthy secret then
    badStatus == 401 && goodStatus == 200
  else
    goodStatus == 200 && badStatus == 200

/-- The greeting rule as claim C3 words it, for comparison with
`buildGreeting`: default when the sender is absent; otherwise the
concatenation, in order, of `@username` (if the username field is present),
first name (if present), last name (if present), joined by single spaces and
prefixed with `Hello `; and the default when all three fields are absent. -/
def greetingClaimed (user : Option TelegramUser) : String :=
  match user with
  | none => "Hello there"
  | some u =>
    if u.username = none ∧ u.first_name = none ∧ u.last_name = none then
      "Hello there"
    else
      "Hello " ++ String.intercalate " "
        ((match u.username with | some s => ["@" ++ s] | none => []) ++
         (match u.first_name with | some s => [s] | none => []) ++
         (match u.last_name with | some s => [s] | none => []))

/-- The greeting rule as amended: a field contributes a token only when it is
present AND non-empty; the tokens, in order `@username`, first name, last
name, are joined by single spaces and surrounding whitespace is trimmed; if
nothing remains the default `Hello there` is used, otherwise the result is
prefixed with `Hello `. -/
def greetingAmended (user : Option TelegramUser) : String :=
  match user with
  | none => "Hello there"
  | some u =>
    let tokens : List String := List.filterMap id
      [u.username.bind (fun s => if s.isEmpty then none else some ("@" ++ s)),
       u.first_name.bind (fun s => if s.isEmpty then none else some s),
       u.last_name.bind (fun s => if s.isEmpty then none else some s)]
    let joined := jsTrim (String.intercalate " " tokens)
    if joined.isEmpty then "Hello there" else "Hello " ++ joined

/-- The sender profile from the claim's concrete example: username `a`,
first name `B`, last name `C`. -/
def abcUser : TelegramUser :=
  { id := 7, is_bot := false, first_name := some "B", last_name := some "C",
    username := some "a" }

/-- A sender profile on which the claimed greeting rule and the
implementation disagree: an empty-string username and a whitespace-only
first name. -/
def c3User : TelegramUser :=
  { id := 1, is_bot := false, first_name := some " ", last_name := none,
    username := some "" }

/-! ## Claim theorems -/

/-- C1: when a shared secret is configured (truthy) and the request's
`X-Telegram-Bot-Api-Secret-Token` header differs from it, `POST /webhook`
responds 401 `unauthorized`, never invokes `c.req.json()`, and schedules no
outbound send — whatever the body parse would have produced. -/
theorem c1_secret_mismatch_rejected (cfg hdr : Option String)
    (parsed : Option TelegramUpdate)
    (hcfg : isTruthy cfg = true) (hne : hdr ≠ cfg) :
    postWebhook cfg hdr parsed =
      { status := 401, body := "unauthorized", parsedBody := false, send := none } := by
  unfold postWebhook
  rw [if_pos ⟨hcfg, hne⟩]

/-- Witness for C1 at the configured secret `S1` and header `wrong`. -/
theorem c1_witness :
    postWebhook (some "S1") (some "wrong")
        (some { update_id := 1, message := none, edited_message := none }) =
      { status := 401, body := "unauthorized", parsedBody := false, send := none } :=
  c1_secret_mismatch_rejected (some "S1") (some "wrong")
    (some { update_id := 1, message := none, edited_message := none })
    (by decide) (by decide)

/-- When no truthy secret is configured, the 401 branch of the handler is
unreachable, whatever the header and body. -/
theorem status_ne_401_of_falsy (cfg hdr : Option String)
    (parsed : Option TelegramUpdate) (h : isTruthy cfg = false) :
    (postWebhook cfg hdr parsed).status ≠ 401 := by
  unfold postWebhook
  rw [if_neg (by rintro ⟨h1, -⟩; rw [h] at h1; exact Bool.false_ne_true h1)]
  rcases parsed with _ | u
  · decide
  · rcases h1 : selectedMessage u with _ | m
    · simp [h1]
    · rcases h2 : m.chat with _ | ch
      · simp [h1, h2]
      · simp [h1, h2]

/-- C2: with no shared secret configured, no `POST /webhook` request is
rejected with 401 for a header mismatch, whatever the header carries (or its
absence) and whatever the body is. -/
theorem c2_no_secret_never_401 (cfg hdr : Option String)
    (parsed : Option TelegramUpdate) (h : isTruthy cfg = false) :
    (postWebhook cfg hdr parsed).status ≠ 401 :=
  status_ne_401_of_falsy cfg hdr parsed h

/-- Witness for C2: secret absent, an arbitrary header value, invalid body. -/
theorem c2_witness : (postWebhook none (some "anything") none).status ≠ 401 :=
  c2_no_secret_never_401 none (some "anything") none (by decide)

/-- C8: a configured secret equal to the empty string is treated as not
configured — the truthiness test `if (configuredSecret && ...)` fails — so no
request is rejected with 401. -/
theorem c8_empty_secret_never_401 (hdr : Option String)
    (parsed : Option TelegramUpdate) :
    (postWebhook (some "") hdr parsed).status ≠ 401 :=
  status_ne_401_of_falsy (some "") hdr parsed (by decide)

/-- C4: once the secret gate is passed, a body that fails JSON parsing gets a
400 `bad request` response and no outbound send is scheduled. -/
theorem c4_invalid_json_400 (cfg hdr : Option String)
    (h : ¬(isTruthy cfg = true ∧ hdr ≠ cfg)) :
    postWebhook cfg hdr none =
      { status := 400, body := "bad request", parsedBody := true, send := none } := by
  unfold postWebhook
  rw [if_neg h]

/-- Witness for C4 at a matching secret header. -/
theorem c4_witness :
    postWebhook (some "S1") (some "S1") none =
      { status := 400, body := "bad request", parsedBody := true, send := none } :=
  c4_invalid_json_400 (some "S1") (some "S1") (by decide)

/-- C5: a parsed Update carrying neither `message` nor `edited_message` is
acknowledged with 200 `ok` and no outbound send is scheduled. -/
theorem c5_empty_update_acked (cfg hdr : Option String) (i : Int)
    (h : ¬(isTruthy cfg = true ∧ hdr ≠ cfg)) :
    postWebhook cfg hdr (some { update_id := i, message := none, edited_message := none }) =
      { status := 200, body := "ok", parsedBody := true, send := none } := by
  unfold postWebhook
  rw [if_neg h]
  rfl

/-- Witness for C5: secret `S1`, matching header, the Update `{update_id: 1}`. -/
theorem c5_witness :
    postWebhook (some "S1") (some "S1")
        (some { update_id := 1, message := none, edited_message := none }) =
      { status := 200, body := "ok", parsedBody := true, send := none } :=
  c5_empty_update_acked (some "S1") (some "S1") 1 (by decide)

/-- C10: if the selected message payload (`message`, else `edited_message`)
lacks a `chat` field, the handler acknowledges with 200 `ok` and schedules no
outbound send, just as when no message payload is present. -/
theorem c10_missing_chat_acked (cfg hdr : Option String) (u : TelegramUpdate)
    (m : TelegramMessage) (h : ¬(isTruthy cfg = true ∧ hdr ≠ cfg))
    (hsel : selectedMessage u = some m) (hchat : m.chat = none) :
    postWebhook cfg hdr (some u) =
      { status := 200, body := "ok", parsedBody := true, send := none } := by
  unfold postWebhook
  rw [if_neg h]
  simp [hsel, hchat]

/-- A concrete chatless `message` payload for the C10 witness. -/
def c10Msg : TelegramMessage :=
  { message_id := 2, date := 3, chat := none, sender := none, text := none }

/-- Witness for C10: a `message` payload with no `chat` field. -/
theorem c10_witness :
    postWebhook (some "S1") (some "S1")
        (some { update_id := 1, message := some c10Msg, edited_message := none }) =
      { status := 200, body := "ok", parsedBody := true, send := none } :=
  c10_missing_chat_acked (some "S1") (some "S1")
    { update_id := 1, message := some c10Msg, edited_message := none }
    c10Msg (by decide) rfl rfl

/-- C9: when an Update carries both `message` and `edited_message`, the
handler uses `message` — its chat id and its sender feed the scheduled send —
and the outcome is identical to the one with `edited_message` removed. -/
theorem c9_message_preferred (cfg hdr : Option String) (i : Int)
    (m em : TelegramMessage) (ch : TelegramChat)
    (h : ¬(isTruthy cfg = true ∧ hdr ≠ cfg)) (hchat : m.chat = some ch) :
    postWebhook cfg hdr
        (some { update_id := i, message := some m, edited_message := some em }) =
      { status := 200, body := "ok", parsedBody := true,
        send := some { chatId := ch.id, text := buildGreeting m.sender } } ∧
    postWebhook cfg hdr
        (some { update_id := i, message := some m, edited_message := some em }) =
      postWebhook cfg hdr
        (some { update_id := i, message := some m, edited_message := none }) := by
  constructor <;>
    (simp only [postWebhook, if_neg h]; simp [selectedMessage, hchat])

/-- A concrete `message` payload for the C9 witness. -/
def c9Msg : TelegramMessage :=
  { message_id := 2, date := 3, chat := some { id := 10, chatType := "private" },
    sender := none, text := none }

/-- A concrete `edited_message` payload for the C9 witness, with a different
chat. -/
def c9Edited : TelegramMessage :=
  { message_id := 4, date := 5, chat := some { id := 20, chatType := "group" },
    sender := none, text := none }

/-- Witness for C9: both payloads present, with distinct chats. -/
theorem c9_witness :
    postWebhook (some "S1") (some "S1")
        (some { update_id := 1, message := some c9Msg, edited_message := some c9Edited }) =
      { status := 200, body := "ok", parsedBody := true,
        send := some { chatId := 10, text := buildGreeting none } } ∧
    postWebhook (some "S1") (some "S1")
        (some { update_id := 1, message := some c9Msg, edited_message := some c9Edited }) =
      postWebhook (some "S1") (some "S1")
        (some { update_id := 1, message := some c9Msg, edited_message := none }) :=
  c9_message_preferred (some "S1") (some "S1") 1 c9Msg c9Edited
    { id := 10, chatType := "private" } (by decide) rfl

/-- A step of the middleware leaves the state alone once the latch is set. -/
theorem middlewareStep_latched (env : Bindings) (s : WorkerState)
    (h : s.webhookInitPromise = true) : middlewareStep env s = s := by
  unfold middlewareStep
  rw [if_neg]
  rintro ⟨-, h2⟩
  rw [h] at h2
  exact Bool.false_ne_true h2.symm

/-- Across any number of requests, the middleware adds at most one
`configureWebhook` invocation, and none once the latch is already set. -/
theorem serveRequests_calls_le (env : Bindings) (n : Nat) :
    ∀ s : WorkerState, (serveRequests env n s).configureWebhookCalls ≤
      s.configureWebhookCalls + (if s.webhookInitPromise = true then 0 else 1) := by
  induction n with
  | zero => intro s; exact Nat.le_add_right _ _
  | succ n ih =>
    intro s
    simp only [serveRequests]
    by_cases hc : autoInitEnabled env = true ∧ s.webhookInitPromise = false
    · unfold middlewareStep
      rw [if_pos hc]
      refine le_trans (ih _) ?_
      simp [hc.2]
    · unfold middlewareStep
      rw [if_neg hc]
      exact ih s

/-- C6: starting from a fresh isolate (`webhookInitPromise = null`), any
sequence of requests through the `app.use` middleware invokes
`configureWebhook` at most once: the in-memory latch is checked and set
synchronously, and `configureWebhook` (a total function into console logs,
whose delete-then-set failures are all caught and logged) never rejects, so
the latch is never cleared again. -/
theorem c6_webhook_init_at_most_once (env : Bindings) (n : Nat) :
    (serveRequests env n initialWorkerState).configureWebhookCalls ≤ 1 := by
  have h := serveRequests_calls_le env n initialWorkerState
  simpa [initialWorkerState] using h

/-- C7: provided `BASE_URL` is configured, the status script's
secret-enforcement check passes exactly when: with a truthy secret the
good-secret probe got 200 and the bad-secret probe got 401; with no truthy
secret both probes got 200. -/
theorem c7_secret_check_iff (baseUrl : String) (secret : Option String)
    (goodStatus badStatus : Nat) (h : baseUrl.isEmpty = false) :
    checkWebhookSecret baseUrl secret goodStatus badStatus = true ↔
      (if isTruthy secret = true then goodStatus = 200 ∧ badStatus = 401
       else goodStatus = 200 ∧ badStatus = 200) := by
  unfold checkWebhookSecret
  rw [if_neg (by simp [h])]
  by_cases hs : isTruthy secret = true
  · rw [if_pos hs, if_pos hs]
    simp [Bool.and_eq_true, beq_iff_eq, and_comm]
  · rw [if_neg hs, if_neg hs]
    simp [Bool.and_eq_true, beq_iff_eq]

/-- Witness for C7: a configured secret with probes answering 200 and 401. -/
theorem c7_witness :
    checkWebhookSecret "https://w.example" (some "S1") 200 401 = true ↔
      (if isTruthy (some "S1") = true then 200 = 200 ∧ 401 = 401
       else 200 = 200 ∧ 401 = 200) :=
  c7_secret_check_iff "https://w.example" (some "S1") 200 401 (by decide)

/-- C3, counterexample: on a sender with an empty-string username and a
whitespace-only first name, the implementation answers the default while the
claim's rule ("present" fields contribute, no empty-result fallback after
trimming) prescribes `Hello @␣␣`; the claim as stated is false here. -/
theorem c3_greeting_counterexample :
    buildGreeting (some c3User) = "Hello there" ∧
    greetingClaimed (some c3User) = "Hello @  " ∧
    buildGreeting (some c3User) ≠ greetingClaimed (some c3User) := by decide

/-- C3 as amended: `buildGreeting` agrees everywhere with the rule "a field
contributes its token only when present and non-empty; tokens joined by
single spaces, surrounding whitespace trimmed; default when nothing remains";
and on username `a`, first name `B`, last name `C` it answers
`Hello @a B C`. -/
theorem c3_greeting_amended :
    (∀ user, buildGreeting user = greetingAmended user) ∧
    buildGreeting (some abcUser) = "Hello @a B C" := by
  constructor
  · intro user
    rcases user with _ | ⟨i, b, fn, ln, un⟩
    · rfl
    · rcases un with _ | s1 <;> rcases fn with _ | s2 <;> rcases ln with _ | s3 <;>
        simp only [buildGreeting, greetingAmended, Option.bind] <;>
        split_ifs <;>
        simp_all [List.filterMap]
  · decide

end TgBot
